import Mathlib

/-!
Shallow embedding of `pypreprocess/openfmri.py` (OpenfMRI layout walker and
layout mirror) and of the outlier-detection script
`scripts/oasis_vbm/clean_data.py`, together with theorems settling the
specification claims about them.

The filesystem is modelled in two ways, matching how the code touches it:
* a read-only oracle `World` answering `os.path.exists` and `glob.glob`
  queries (used by the discovery code, which only reads), and
* a mutable content map `FS` from paths to file contents (used by the
  hard-linking helpers `_link_file` / `_link_files`, which write).
-/

/-! ## Path utilities, modelling `os.path` (POSIX flavour) -/

/-- Model of `os.path.split`: split a path at its last slash.  The basename is
everything after the last slash; the dirname is everything before it, with
trailing slashes stripped unless the dirname consists only of slashes. -/
def splitPath (p : String) : String × String :=
  let rev := p.data.reverse
  let tail := (rev.takeWhile (fun c => c ≠ '/')).reverse
  let headRev := rev.dropWhile (fun c => c ≠ '/')
  let head :=
    if headRev.any (fun c => c ≠ '/') then (headRev.dropWhile (fun c => c = '/')).reverse
    else headRev.reverse
  (⟨head⟩, ⟨tail⟩)

/-- Model of `os.path.basename`. -/
def basename (p : String) : String := (splitPath p).2

/-- Model of the two-argument `os.path.join` on POSIX: an absolute second
component replaces the first; otherwise the components are glued with a
single slash unless the first is empty or already ends in a slash. -/
def pathJoin (a b : String) : String :=
  if "/".data.isPrefixOf b.data then b
  else if a = "" ∨ "/".data.isSuffixOf a.data then a ++ b
  else a ++ "/" ++ b

/-- Model of the variadic `os.path.join`, folding `pathJoin` left to right. -/
def pathJoins (a : String) (rest : List String) : String :=
  rest.foldl pathJoin a

/-- Model of Python's `str.rstrip('/')`. -/
def rstripSlash (p : String) : String :=
  ⟨(p.data.reverse.dropWhile (fun c => c = '/')).reverse⟩

/-! ## Python's `sorted` on strings

Python compares strings lexicographically by code point.  `String`'s builtin
order in Lean does not reduce in the kernel, so we define the same
lexicographic order on the underlying character lists and sort with it. -/

/-- Lexicographic (code-point) comparison of character lists, as Python
compares strings. -/
def lexLe : List Char → List Char → Bool
  | [], _ => true
  | _ :: _, [] => false
  | a :: as, b :: bs => if a < b then true else if b < a then false else lexLe as bs

/-- Python's `<=` on strings. -/
def strLe (a b : String) : Bool := lexLe a.data b.data

/-- `strLe` as a proposition, so Mathlib's sorting lemmas apply. -/
def strLeP (a b : String) : Prop := strLe a b = true

instance : DecidableRel strLeP := fun a b => inferInstanceAs (Decidable (strLe a b = true))

theorem lexLe_total : ∀ as bs : List Char, lexLe as bs = true ∨ lexLe bs as = true
  | [], _ => Or.inl rfl
  | _ :: _, [] => Or.inr rfl
  | a :: as, b :: bs => by
    by_cases hab : a < b
    · exact Or.inl (by simp [lexLe, hab])
    · by_cases hba : b < a
      · exact Or.inr (by simp [lexLe, hba])
      · rcases lexLe_total as bs with h | h
        · exact Or.inl (by simp [lexLe, hab, hba, h])
        · exact Or.inr (by simp [lexLe, hab, hba, h])

theorem lexLe_trans : ∀ as bs cs : List Char,
    lexLe as bs = true → lexLe bs cs = true → lexLe as cs = true
  | [], _, _ => fun _ _ => rfl
  | _ :: _, [], _ => fun h _ => by simp [lexLe] at h
  | _ :: _, _ :: _, [] => fun _ h => by simp [lexLe] at h
  | a :: as, b :: bs, c :: cs => fun h₁ h₂ => by
    by_cases hab : a < b
    · by_cases hbc : b < c
      · simp [lexLe, lt_trans hab hbc]
      · by_cases hcb : c < b
        · simp [lexLe, hbc, hcb] at h₂
        · have hbc' : b = c := le_antisymm (le_of_not_lt hcb) (le_of_not_lt hbc)
          simp [lexLe, hbc' ▸ hab]
    · by_cases hba : b < a
      · simp [lexLe, hab, hba] at h₁
      · have hab' : a = b := le_antisymm (le_of_not_lt hba) (le_of_not_lt hab)
        subst hab'
        by_cases hac : a < c
        · simp [lexLe, hac]
        · by_cases hca : c < a
          · simp [lexLe, hca] at h₂ ⊢
            exact h₂
          · simp [lexLe, hab, hac, hca] at h₁ h₂ ⊢
            exact lexLe_trans as bs cs h₁ h₂

theorem lexLe_antisymm : ∀ as bs : List Char,
    lexLe as bs = true → lexLe bs as = true → as = bs
  | [], [] => fun _ _ => rfl
  | [], _ :: _ => fun _ h => by simp [lexLe] at h
  | _ :: _, [] => fun h _ => by simp [lexLe] at h
  | a :: as, b :: bs => fun h₁ h₂ => by
    by_cases hab : a < b
    · simp [lexLe, hab, lt_asymm hab] at h₂
    · by_cases hba : b < a
      · simp [lexLe, hab, hba] at h₁
      · have hab' : a = b := le_antisymm (le_of_not_lt hba) (le_of_not_lt hab)
        subst hab'
        simp [lexLe, hab] at h₁ h₂
        rw [lexLe_antisymm as bs h₁ h₂]

instance : IsTotal String strLeP :=
  ⟨fun a b => lexLe_total a.data b.data⟩

instance : IsTrans String strLeP :=
  ⟨fun a b c => lexLe_trans a.data b.data c.data⟩

instance : IsAntisymm String strLeP :=
  ⟨fun a b h₁ h₂ => by
    have h := lexLe_antisymm a.data b.data h₁ h₂
    cases a; cases b; exact congrArg String.mk h⟩

/-- Model of Python's `sorted` on a list of strings. -/
def pySorted (l : List String) : List String := l.insertionSort strLeP

theorem pySorted_sorted (l : List String) : (pySorted l).Sorted strLeP :=
  List.sorted_insertionSort strLeP l

theorem pySorted_perm (l : List String) : (pySorted l).Perm l :=
  List.perm_insertionSort strLeP l

theorem pySorted_mem {a : String} {l : List String} : a ∈ pySorted l ↔ a ∈ l :=
  (pySorted_perm l).mem_iff

/-- Model of Python's `sorted(set(...))`: deduplicate, then sort. -/
def pySortedSet (l : List String) : List String := pySorted l.dedup

theorem pySortedSet_sorted (l : List String) : (pySortedSet l).Sorted strLeP :=
  pySorted_sorted _

theorem pySortedSet_nodup (l : List String) : (pySortedSet l).Nodup :=
  (pySorted_perm l.dedup).nodup_iff.mpr l.nodup_dedup

theorem pySortedSet_mem {a : String} {l : List String} : a ∈ pySortedSet l ↔ a ∈ l := by
  unfold pySortedSet
  rw [pySorted_mem, List.mem_dedup]

/-- A sorted deduplicated list is determined by membership alone: the order in
which elements were discovered is irrelevant. -/
theorem pySortedSet_ext {l₁ l₂ : List String}
    (h : ∀ a, a ∈ l₁ ↔ a ∈ l₂) : pySortedSet l₁ = pySortedSet l₂ := by
  refine List.eq_of_perm_of_sorted ?_ (pySortedSet_sorted l₁) (pySortedSet_sorted l₂)
  refine (List.perm_ext_iff_of_nodup (pySortedSet_nodup l₁) (pySortedSet_nodup l₂)).mpr ?_
  intro a
  rw [pySortedSet_mem, pySortedSet_mem]
  exact h a

/-! ## Read-only filesystem oracle -/

/-- The read-only filesystem oracle: answers `os.path.exists` and `glob.glob`
queries.  `glob pat` is the list of paths matching the pattern `pat`, in the
arbitrary order the operating system reports them. -/
structure World where
  pathExists : String → Bool
  glob : String → List String

/-- Embedding of the `SubjectData` record as filled in by `subject_factory`. -/
structure SubjectData where
  subject_id : String
  session_id : List String
  func : List String
  anat : String
  output_dir : String
deriving DecidableEq

/-- The warning text `'Subject %s is missing data for session %s.'`. -/
def warnMissing (subject_id session_id : String) : String :=
  "Subject " ++ subject_id ++ " is missing data for session " ++ session_id ++ "."

/-- The warning text `'Excluding subject %s'`. -/
def warnExcluding (subject_id : String) : String :=
  "Excluding subject " ++ subject_id

/-- `os.path.join(data_dir, subject_id, 'BOLD', session_id)`. -/
def boldDir (data_dir subject_id session_id : String) : String :=
  pathJoins data_dir [subject_id, "BOLD", session_id]

/-- The glob pattern `os.path.join(bold_dir, "bold.nii.gz")`. -/
def boldPattern (data_dir subject_id session_id : String) : String :=
  pathJoin (boldDir data_dir subject_id session_id) "bold.nii.gz"

/-- The per-session loop of `subject_factory`: glob each session's functional
image in order; on the first session whose glob is empty, record the warning,
set `has_bad_sessions` and `break`.  Returns (collected `func` paths,
`has_bad_sessions`, warnings). -/
def collectFunc (w : World) (data_dir subject_id : String) :
    List String → List String × Bool × List String
  | [] => ([], false, [])
  | session_id :: rest =>
    match w.glob (boldPattern data_dir subject_id session_id) with
    | [] => ([], true, [warnMissing subject_id session_id])
    | f :: _ =>
      let r := collectFunc w data_dir subject_id rest
      (f :: r.1, r.2.1, r.2.2)

/-- Session enumeration of `subject_factory`: glob the immediate children of
the subject's `BOLD` directory, collect their basenames into a set, then sort
(`sessions = sorted(sessions)`). -/
def sessionsOf (w : World) (data_dir subject_id : String) : List String :=
  pySortedSet
    ((w.glob (pathJoins (pathJoin data_dir subject_id) ["BOLD", "*"])).map basename)

/-- `os.path.join(data_dir, subject_id, 'anatomy', 'highres001.nii.gz')`. -/
def anatFullPath (data_dir subject_id : String) : String :=
  pathJoins data_dir [subject_id, "anatomy", "highres001.nii.gz"]

/-- `os.path.join(data_dir, subject_id, 'anatomy', 'highres001_brain.nii.gz')`. -/
def anatBrainPath (data_dir subject_id : String) : String :=
  pathJoins data_dir [subject_id, "anatomy", "highres001_brain.nii.gz"]

/-- The body of `subject_factory`'s outer loop for one subject (after the
`ignore_subjects` test): enumerate sessions, collect functional images,
exclude the subject if any session lacked one, otherwise resolve the
anatomical path and build the descriptor.  Returns the yielded descriptor (or
`none` when the subject is excluded) and the warnings emitted. -/
def processSubject (w : World) (data_dir output_dir subject_id : String) :
    Option SubjectData × List String :=
  let sessions := sessionsOf w data_dir subject_id
  let r := collectFunc w data_dir subject_id sessions
  if r.2.1 then (none, r.2.2 ++ [warnExcluding subject_id])
  else
    let anat :=
      if w.pathExists (anatFullPath data_dir subject_id) then
        anatFullPath data_dir subject_id
      else anatBrainPath data_dir subject_id
    (some { subject_id := subject_id, session_id := sessions, func := r.1,
            anat := anat, output_dir := pathJoin output_dir subject_id },
     r.2.2)

/-- The `subject_factory` generator, run to completion over the given subject
list: skip ignored subjects, process the rest in order.  Returns the yielded
descriptors in order together with all warnings emitted. -/
def subjectFactory (w : World) (data_dir output_dir : String)
    (ignore_subjects : List String) : List String → List SubjectData × List String
  | [] => ([], [])
  | subject_id :: rest =>
    if subject_id ∈ ignore_subjects then
      subjectFactory w data_dir output_dir ignore_subjects rest
    else
      let p := processSubject w data_dir output_dir subject_id
      let r := subjectFactory w data_dir output_dir ignore_subjects rest
      match p.1 with
      | none => (r.1, p.2 ++ r.2)
      | some s => (s :: r.1, p.2 ++ r.2)

/-- Subject enumeration of `preproc_dataset`: glob `sub???` directories and
take basenames, unless `restrict_subjects` is given, in which case that list
is used as-is; then `subjects = sorted(subjects)`. -/
def computeSubjects (w : World) (data_dir : String)
    (restrict_subjects : Option (List String)) : List String :=
  pySorted
    (match restrict_subjects with
     | none => (w.glob (pathJoin data_dir "sub???")).map basename
     | some l => l)

/-- The discovery phase of `preproc_dataset`: normalise `ignore_subjects`
(`None` becomes `[]`), enumerate subjects, run the factory. -/
def discoverSubjects (w : World) (data_dir output_dir : String)
    (ignore_subjects restrict_subjects : Option (List String)) :
    List SubjectData × List String :=
  subjectFactory w data_dir output_dir (ignore_subjects.getD [])
    (computeSubjects w data_dir restrict_subjects)

/-- The head of `preproc_dataset`: split `data_dir` into parent and dataset
id; if `data_dir` does not exist, call `fetch_openfmri(parent_dir,
dataset_id)` (an exception from it propagates unchanged); only then proceed
to subject enumeration. -/
def preprocHead (w : World) (fetch : String → String → Except String Unit)
    (data_dir : String) (restrict_subjects : Option (List String)) :
    Except String (List String) :=
  let p := splitPath data_dir
  match (if w.pathExists data_dir then Except.ok () else fetch p.1 p.2) with
  | .error e => .error e
  | .ok _ => .ok (computeSubjects w data_dir restrict_subjects)

/-! ## Mutable filesystem content map, for the hard-linking helpers -/

/-- A filesystem as an association list from paths to file contents (contents
abstracted as naturals).  The first binding of a path is its current
content. -/
abbrev FS := List (String × Nat)

/-- Content of the file at `p`, if one exists. -/
def fsLookup (fs : FS) (p : String) : Option Nat :=
  match fs with
  | [] => none
  | e :: rest => if e.1 = p then some e.2 else fsLookup rest p

/-- Model of `os.path.exists` against the content map. -/
def fsExists (fs : FS) (p : String) : Bool := (fsLookup fs p).isSome

/-- Model of `os.remove(p)`: drop every binding of `p`. -/
def fsRemove (fs : FS) (p : String) : FS :=
  match fs with
  | [] => []
  | e :: rest => if e.1 = p then fsRemove rest p else e :: fsRemove rest p

/-- Model of `os.link(src, dest)`: fails if `src` is missing or `dest` already
exists; otherwise `dest` now shares `src`'s content. -/
def osLink (fs : FS) (src dest : String) : Except String FS :=
  match fsLookup fs src with
  | none => .error ("FileNotFoundError: " ++ src)
  | some c =>
    if fsExists fs dest then .error ("FileExistsError: " ++ dest)
    else .ok ((dest, c) :: fs)

/-- The destination path `_link_file` writes to: `dest_dir` joined with
`fname`, defaulting to `src`'s basename when `fname` is `None`. -/
def linkDest (dest_dir src : String) (fname : Option String) : String :=
  pathJoin dest_dir (fname.getD (splitPath src).2)

/-- Embedding of `_link_file(dest_dir, src, fname)`: if the destination
already exists it is removed first, then the hard link is created. -/
def linkFile (fs : FS) (dest_dir src : String) (fname : Option String) :
    Except String FS :=
  let dest := linkDest dest_dir src fname
  let fs₁ := if fsExists fs dest then fsRemove fs dest else fs
  osLink fs₁ src dest

theorem fsLookup_fsRemove_self (fs : FS) (p : String) :
    fsLookup (fsRemove fs p) p = none := by
  induction fs with
  | nil => rfl
  | cons e rest ih =>
    by_cases h : e.1 = p
    · simpa [fsRemove, h] using ih
    · simpa [fsRemove, h, fsLookup] using ih

theorem fsLookup_fsRemove_ne (fs : FS) {p q : String} (h : q ≠ p) :
    fsLookup (fsRemove fs p) q = fsLookup fs q := by
  induction fs with
  | nil => rfl
  | cons e rest ih =>
    by_cases he : e.1 = p
    · have hq : e.1 ≠ q := fun hq => h (hq ▸ he)
      simp [fsRemove, he, fsLookup, hq, ih, Ne.symm h]
    · by_cases heq : e.1 = q
      · simp [fsRemove, he, fsLookup, heq, h]
      · simp [fsRemove, he, fsLookup, heq, ih]

theorem fsRemove_of_not_exists {fs : FS} {p : String}
    (h : fsExists fs p = false) : fsRemove fs p = fs := by
  induction fs with
  | nil => rfl
  | cons e rest ih =>
    unfold fsExists fsLookup at h
    by_cases he : e.1 = p
    · simp [he] at h
    · simp [he] at h
      simp [fsRemove, he, ih (by simpa [fsExists] using h)]

/-- C3: `_link_file` removes any existing file at the destination before
creating the hard link, so a second run produces the identical filesystem and
raises no "already exists" error, and the destination always ends up with the
source's content, destroying whatever previously occupied that path. -/
theorem linkFile_idempotent_destructive
    (fs : FS) (dest_dir src : String) (fname : Option String) (c : Nat)
    (hsrc : fsLookup fs src = some c)
    (hne : linkDest dest_dir src fname ≠ src) :
    ∃ fs₁, linkFile fs dest_dir src fname = Except.ok fs₁
      ∧ linkFile fs₁ dest_dir src fname = Except.ok fs₁
      ∧ fsLookup fs₁ (linkDest dest_dir src fname) = some c := by
  set dest := linkDest dest_dir src fname with hdest
  have hpre : fsLookup (if fsExists fs dest then fsRemove fs dest else fs) src = some c := by
    by_cases hex : fsExists fs dest
    · rw [if_pos hex, fsLookup_fsRemove_ne fs (Ne.symm hne)]; exact hsrc
    · rw [if_neg hex]; exact hsrc
  have hnodest : fsExists (if fsExists fs dest then fsRemove fs dest else fs) dest = false := by
    by_cases hex : fsExists fs dest
    · rw [if_pos hex]; simp [fsExists, fsLookup_fsRemove_self]
    · rw [if_neg hex]; simpa using hex
  set fs₀ := if fsExists fs dest then fsRemove fs dest else fs with hfs₀
  refine ⟨(dest, c) :: fs₀, ?_, ?_, ?_⟩
  · rw [linkFile, ← hdest, ← hfs₀, osLink, hpre, hnodest]
    simp
  · have hex₁ : fsExists ((dest, c) :: fs₀) dest = true := by
      simp [fsExists, fsLookup]
    have hrem : fsRemove ((dest, c) :: fs₀) dest = fs₀ := by
      have h₀ : fsExists fs₀ dest = false := hnodest
      simp [fsRemove, fsRemove_of_not_exists h₀]
    rw [linkFile, ← hdest, if_pos hex₁, hrem, osLink, hpre, hnodest]
    simp
  · simp [fsLookup]

/-! ## Lemmas about the per-session loop and the factory -/

theorem collectFunc_all_good (w : World) (data_dir subject_id : String) :
    ∀ (sessions : List String),
    (∀ s ∈ sessions, w.glob (boldPattern data_dir subject_id s) ≠ []) →
    collectFunc w data_dir subject_id sessions =
      (sessions.map (fun s => (w.glob (boldPattern data_dir subject_id s)).headD ""),
       false, [])
  | [], _ => rfl
  | session_id :: rest, h => by
    cases hglob : w.glob (boldPattern data_dir subject_id session_id) with
    | nil => exact absurd hglob (h session_id (by simp))
    | cons f t =>
      have ih := collectFunc_all_good w data_dir subject_id rest
        (fun s hs => h s (List.mem_cons_of_mem _ hs))
      simp [collectFunc, hglob, ih]

theorem collectFunc_first_bad (w : World) (data_dir subject_id bad : String)
    (post : List String) (hbad : w.glob (boldPattern data_dir subject_id bad) = []) :
    ∀ (pre : List String),
    (∀ s ∈ pre, w.glob (boldPattern data_dir subject_id s) ≠ []) →
    collectFunc w data_dir subject_id (pre ++ bad :: post) =
      (pre.map (fun s => (w.glob (boldPattern data_dir subject_id s)).headD ""),
       true, [warnMissing subject_id bad])
  | [], _ => by simp [collectFunc, hbad]
  | s₀ :: pre, h => by
    cases hglob : w.glob (boldPattern data_dir subject_id s₀) with
    | nil => exact absurd hglob (h s₀ (by simp))
    | cons f t =>
      have ih := collectFunc_first_bad w data_dir subject_id bad post hbad pre
        (fun s hs => h s (List.mem_cons_of_mem _ hs))
      simp [collectFunc, hglob, ih]

theorem processSubject_excluded (w : World) (data_dir output_dir subject_id : String)
    (pre post : List String) (bad : String)
    (hsess : sessionsOf w data_dir subject_id = pre ++ bad :: post)
    (hpre : ∀ s ∈ pre, w.glob (boldPattern data_dir subject_id s) ≠ [])
    (hbad : w.glob (boldPattern data_dir subject_id bad) = []) :
    processSubject w data_dir output_dir subject_id =
      (none, [warnMissing subject_id bad, warnExcluding subject_id]) := by
  have hc := collectFunc_first_bad w data_dir subject_id bad post hbad pre hpre
  simp only [processSubject]
  rw [hsess, hc]
  simp

theorem processSubject_subject_id {w : World} {data_dir output_dir subject_id : String}
    {s : SubjectData}
    (h : (processSubject w data_dir output_dir subject_id).1 = some s) :
    s.subject_id = subject_id := by
  simp only [processSubject] at h
  by_cases hb : (collectFunc w data_dir subject_id (sessionsOf w data_dir subject_id)).2.1
  · simp [hb] at h
  · simp [hb] at h
    rw [← h]

theorem subjectFactory_mem (w : World) (data_dir output_dir : String)
    (ignore : List String) :
    ∀ (subjects : List String) {s : SubjectData},
    s ∈ (subjectFactory w data_dir output_dir ignore subjects).1 →
    (processSubject w data_dir output_dir s.subject_id).1 = some s
  | [], _, h => absurd h (List.not_mem_nil _)
  | sid :: rest, s, h => by
    by_cases hig : sid ∈ ignore
    · simp only [subjectFactory, if_pos hig] at h
      exact subjectFactory_mem w data_dir output_dir ignore rest h
    · simp only [subjectFactory, if_neg hig] at h
      cases hp : (processSubject w data_dir output_dir sid).1 with
      | none =>
        rw [hp] at h
        exact subjectFactory_mem w data_dir output_dir ignore rest h
      | some t =>
        rw [hp] at h
        rcases List.mem_cons.mp h with rfl | hmem
        · rw [processSubject_subject_id hp]
          exact hp
        · exact subjectFactory_mem w data_dir output_dir ignore rest hmem

theorem subjectFactory_warn_mem (w : World) (data_dir output_dir : String)
    (ignore : List String) {subject_id wmsg : String}
    (hig : subject_id ∉ ignore)
    (hw : wmsg ∈ (processSubject w data_dir output_dir subject_id).2) :
    ∀ (subjects : List String), subject_id ∈ subjects →
    wmsg ∈ (subjectFactory w data_dir output_dir ignore subjects).2
  | [], h => absurd h (List.not_mem_nil _)
  | sid :: rest, h => by
    rcases List.mem_cons.mp h with rfl | hmem
    · simp only [subjectFactory, if_neg hig]
      cases hp : (processSubject w data_dir output_dir subject_id).1 <;>
        simp only [hp] <;>
        exact List.mem_append_left _ hw
    · by_cases hig' : sid ∈ ignore
      · simp only [subjectFactory, if_pos hig']
        exact subjectFactory_warn_mem w data_dir output_dir ignore hig hw rest hmem
      · simp only [subjectFactory, if_neg hig']
        cases hp : (processSubject w data_dir output_dir sid).1 <;>
          simp only [hp] <;>
          exact List.mem_append_right _
            (subjectFactory_warn_mem w data_dir output_dir ignore hig hw rest hmem)

/-- C1: if some session of a subject (the first bad one, in the sorted session
list) has no `bold.nii.gz`, the subject's processing short-circuits there:
the subject yields nothing (its already-collected functional paths are
discarded with it), exactly one missing-data warning naming the subject and
that session is emitted followed by the exclusion warning, the subject id is
absent from the factory's yielded descriptors, and both warnings appear in
the factory's warning stream. -/
theorem subject_excluded_on_missing_session
    (w : World) (data_dir output_dir : String) (subjects ignore : List String)
    (subject_id : String) (pre post : List String) (bad : String)
    (hmem : subject_id ∈ subjects) (hig : subject_id ∉ ignore)
    (hsess : sessionsOf w data_dir subject_id = pre ++ bad :: post)
    (hpre : ∀ s ∈ pre, w.glob (boldPattern data_dir subject_id s) ≠ [])
    (hbad : w.glob (boldPattern data_dir subject_id bad) = []) :
    processSubject w data_dir output_dir subject_id =
        (none, [warnMissing subject_id bad, warnExcluding subject_id])
      ∧ subject_id ∉
          ((subjectFactory w data_dir output_dir ignore subjects).1.map SubjectData.subject_id)
      ∧ warnMissing subject_id bad ∈ (subjectFactory w data_dir output_dir ignore subjects).2
      ∧ warnExcluding subject_id ∈ (subjectFactory w data_dir output_dir ignore subjects).2 := by
  have hexc := processSubject_excluded w data_dir output_dir subject_id pre post bad
    hsess hpre hbad
  refine ⟨hexc, ?_, ?_, ?_⟩
  · intro hin
    rcases List.mem_map.mp hin with ⟨s, hs, hsid⟩
    have hps := subjectFactory_mem w data_dir output_dir ignore subjects hs
    rw [hsid, hexc] at hps
    exact Option.noConfusion hps
  · exact subjectFactory_warn_mem w data_dir output_dir ignore hig
      (by rw [hexc]; simp) subjects hmem
  · exact subjectFactory_warn_mem w data_dir output_dir ignore hig
      (by rw [hexc]; simp) subjects hmem

/-- A concrete world for the C1 witness: subject `sub001` has sessions `ses1`
and `ses2` (discovered unsorted); `ses1` has a functional image, `ses2` does
not. -/
def wC1 : World where
  pathExists := fun _ => false
  glob := fun pat =>
    if pat = pathJoins (pathJoin "/d" "sub001") ["BOLD", "*"] then
      ["/d/sub001/BOLD/ses2", "/d/sub001/BOLD/ses1"]
    else if pat = boldPattern "/d" "sub001" "ses1" then
      ["/d/sub001/BOLD/ses1/bold.nii.gz"]
    else []

/-- Witness for C1 at the concrete world `wC1`. -/
theorem subject_excluded_on_missing_session_witness :
    "sub001" ∈ ["sub001"] ∧ ("sub001" : String) ∉ ([] : List String) ∧
    sessionsOf wC1 "/d" "sub001" = ["ses1"] ++ "ses2" :: [] ∧
    (∀ s ∈ ["ses1"], wC1.glob (boldPattern "/d" "sub001" s) ≠ []) ∧
    wC1.glob (boldPattern "/d" "sub001" "ses2") = [] ∧
    (processSubject wC1 "/d" "/o" "sub001" =
        (none, [warnMissing "sub001" "ses2", warnExcluding "sub001"])
      ∧ "sub001" ∉ ((subjectFactory wC1 "/d" "/o" [] ["sub001"]).1.map SubjectData.subject_id)
      ∧ warnMissing "sub001" "ses2" ∈ (subjectFactory wC1 "/d" "/o" [] ["sub001"]).2
      ∧ warnExcluding "sub001" ∈ (subjectFactory wC1 "/d" "/o" [] ["sub001"]).2) :=
  ⟨by decide, by decide, by decide, by decide, by decide,
    subject_excluded_on_missing_session wC1 "/d" "/o" ["sub001"] [] "sub001" ["ses1"] [] "ses2"
      (by decide) (by decide) (by decide) (by decide) (by decide)⟩

/-- Witness for C3 at a concrete filesystem where an unrelated file already
occupies the destination path. -/
theorem linkFile_idempotent_destructive_witness :
    fsLookup [("x/f", 5), ("s", 7)] "s" = some 7 ∧
    linkDest "x" "s" (some "f") ≠ "s" ∧
    (∃ fs₁, linkFile [("x/f", 5), ("s", 7)] "x" "s" (some "f") = Except.ok fs₁
      ∧ linkFile fs₁ "x" "s" (some "f") = Except.ok fs₁
      ∧ fsLookup fs₁ (linkDest "x" "s" (some "f")) = some 7) :=
  ⟨by decide, by decide,
    linkFile_idempotent_destructive [("x/f", 5), ("s", 7)] "x" "s" (some "f") 7
      (by decide) (by decide)⟩

theorem processSubject_some_eq {w : World} {data_dir output_dir subject_id : String}
    {s : SubjectData}
    (h : (processSubject w data_dir output_dir subject_id).1 = some s) :
    s.session_id = sessionsOf w data_dir subject_id
  ∧ (collectFunc w data_dir subject_id (sessionsOf w data_dir subject_id)).2.1 = false
  ∧ s.func = (collectFunc w data_dir subject_id (sessionsOf w data_dir subject_id)).1
  ∧ s.anat = (if w.pathExists (anatFullPath data_dir subject_id) then
                anatFullPath data_dir subject_id
              else anatBrainPath data_dir subject_id)
  ∧ s.subject_id = subject_id
  ∧ s.output_dir = pathJoin output_dir subject_id := by
  simp only [processSubject] at h
  by_cases hb : (collectFunc w data_dir subject_id (sessionsOf w data_dir subject_id)).2.1
  · rw [if_pos hb] at h
    exact Option.noConfusion h
  · rw [if_neg hb] at h
    replace h := Option.some.inj h
    refine ⟨?_, by simpa using hb, ?_, ?_, ?_, ?_⟩ <;> rw [← h]

theorem collectFunc_false_imp (w : World) (data_dir subject_id : String) :
    ∀ (sessions : List String),
    (collectFunc w data_dir subject_id sessions).2.1 = false →
    ∀ s ∈ sessions, w.glob (boldPattern data_dir subject_id s) ≠ []
  | [], _, s, hs => absurd hs (List.not_mem_nil _)
  | s₀ :: rest, h, s, hs => by
    cases hglob : w.glob (boldPattern data_dir subject_id s₀) with
    | nil => simp [collectFunc, hglob] at h
    | cons f t =>
      simp only [collectFunc, hglob] at h
      rcases List.mem_cons.mp hs with rfl | hmem
      · rw [hglob]; simp
      · exact collectFunc_false_imp w data_dir subject_id rest h s hmem

/-- C5: for every yielded subject, the anatomical path is the full-head image
`anatomy/highres001.nii.gz` whenever it exists; when it does not, the
skull-stripped `anatomy/highres001_brain.nii.gz` is substituted with no
further existence check and no third fallback. -/
theorem anat_fallback (w : World) (data_dir output_dir subject_id : String)
    (s : SubjectData)
    (h : (processSubject w data_dir output_dir subject_id).1 = some s) :
    (w.pathExists (anatFullPath data_dir subject_id) = true →
        s.anat = anatFullPath data_dir subject_id)
  ∧ (w.pathExists (anatFullPath data_dir subject_id) = false →
        s.anat = anatBrainPath data_dir subject_id) := by
  obtain ⟨-, -, -, ha, -, -⟩ := processSubject_some_eq h
  constructor <;> intro hex <;> rw [ha] <;> simp [hex]

/-- C6: every yielded subject's session list is the lexicographically sorted
deduplication of the basenames globbed under its BOLD directory — sorted,
duplicate-free, containing exactly the discovered names, and independent of
discovery order — and the functional-image path list is aligned to it by
index (the i-th functional path is the globbed `bold.nii.gz` of the i-th
session). -/
theorem session_list_canonical (w : World) (data_dir output_dir subject_id : String)
    (s : SubjectData)
    (h : (processSubject w data_dir output_dir subject_id).1 = some s) :
    s.session_id.Sorted strLeP
  ∧ s.session_id.Nodup
  ∧ (∀ x, x ∈ s.session_id ↔
      x ∈ (w.glob (pathJoins (pathJoin data_dir subject_id) ["BOLD", "*"])).map basename)
  ∧ (∀ w₂ : World,
      (∀ x, x ∈ (w₂.glob (pathJoins (pathJoin data_dir subject_id) ["BOLD", "*"])).map basename
         ↔ x ∈ (w.glob (pathJoins (pathJoin data_dir subject_id) ["BOLD", "*"])).map basename) →
      sessionsOf w₂ data_dir subject_id = s.session_id)
  ∧ s.func = s.session_id.map
      (fun sess => (w.glob (boldPattern data_dir subject_id sess)).headD "")
  ∧ s.func.length = s.session_id.length := by
  obtain ⟨hsid, hb, hfunc, -, -, -⟩ := processSubject_some_eq h
  have hall := collectFunc_false_imp w data_dir subject_id _ hb
  have hgood := collectFunc_all_good w data_dir subject_id _ hall
  refine ⟨?_, ?_, ?_, ?_, ?_, ?_⟩
  · rw [hsid]; exact pySortedSet_sorted _
  · rw [hsid]; exact pySortedSet_nodup _
  · intro x; rw [hsid]; exact pySortedSet_mem
  · intro w₂ hiff
    rw [hsid]
    exact pySortedSet_ext hiff
  · rw [hfunc, hgood, hsid]
  · rw [hfunc, hgood]
    simp [hsid]

/-- A concrete world for the C6 witness: subject `sub001` has sessions
`ses01`, `ses03`, `ses02` discovered in that order, all with functional
images. -/
def wC6 : World where
  pathExists := fun _ => false
  glob := fun pat =>
    if pat = pathJoins (pathJoin "/d" "sub001") ["BOLD", "*"] then
      ["/d/sub001/BOLD/ses01", "/d/sub001/BOLD/ses03", "/d/sub001/BOLD/ses02"]
    else if pat = boldPattern "/d" "sub001" "ses01" then
      ["/d/sub001/BOLD/ses01/bold.nii.gz"]
    else if pat = boldPattern "/d" "sub001" "ses02" then
      ["/d/sub001/BOLD/ses02/bold.nii.gz"]
    else if pat = boldPattern "/d" "sub001" "ses03" then
      ["/d/sub001/BOLD/ses03/bold.nii.gz"]
    else []

/-- The descriptor `wC6` yields for `sub001`. -/
def sC6 : SubjectData where
  subject_id := "sub001"
  session_id := ["ses01", "ses02", "ses03"]
  func := ["/d/sub001/BOLD/ses01/bold.nii.gz", "/d/sub001/BOLD/ses02/bold.nii.gz",
           "/d/sub001/BOLD/ses03/bold.nii.gz"]
  anat := "/d/sub001/anatomy/highres001_brain.nii.gz"
  output_dir := "/o/sub001"

/-- Witness for C6: sessions discovered as {ses01, ses03, ses02} yield the
sorted session list [ses01, ses02, ses03], with the functional list aligned
by index. -/
theorem session_list_canonical_witness :
    (processSubject wC6 "/d" "/o" "sub001").1 = some sC6 ∧
    sC6.session_id = ["ses01", "ses02", "ses03"] ∧
    sC6.func = sC6.session_id.map
      (fun sess => (wC6.glob (boldPattern "/d" "sub001" sess)).headD "") :=
  ⟨by decide, by decide,
    (session_list_canonical wC6 "/d" "/o" "sub001" sC6 (by decide)).2.2.2.2.1⟩

/-- A concrete world for the C5 witness: like `wC6` but the full-head
anatomical image of `sub001` exists on disk. -/
def wC5 : World where
  pathExists := fun p => p = anatFullPath "/d" "sub001"
  glob := wC6.glob

/-- The descriptor `wC5` yields for `sub001`: the anatomical path resolves to
the full-head image. -/
def sC5 : SubjectData where
  subject_id := "sub001"
  session_id := ["ses01", "ses02", "ses03"]
  func := ["/d/sub001/BOLD/ses01/bold.nii.gz", "/d/sub001/BOLD/ses02/bold.nii.gz",
           "/d/sub001/BOLD/ses03/bold.nii.gz"]
  anat := "/d/sub001/anatomy/highres001.nii.gz"
  output_dir := "/o/sub001"

/-- Witness for C5: with the full-head image present the resolved anatomical
path is the full-head one; `anat_fallback` applied at `wC5`. -/
theorem anat_fallback_witness :
    (processSubject wC5 "/d" "/o" "sub001").1 = some sC5 ∧
    wC5.pathExists (anatFullPath "/d" "sub001") = true ∧
    sC5.anat = anatFullPath "/d" "sub001" :=
  ⟨by decide, by decide,
    (anat_fallback wC5 "/d" "/o" "sub001" sC5 (by decide)).1 (by decide)⟩

theorem subjectFactory_ids (w : World) (data_dir output_dir : String)
    (ignore : List String) :
    ∀ (subjects : List String),
    (∀ sid ∈ subjects, sid ∉ ignore →
      (processSubject w data_dir output_dir sid).1.isSome = true) →
    (subjectFactory w data_dir output_dir ignore subjects).1.map SubjectData.subject_id =
      subjects.filter (fun sid => sid ∉ ignore)
  | [], _ => rfl
  | sid :: rest, h => by
    have ih := subjectFactory_ids w data_dir output_dir ignore rest
      (fun x hx => h x (List.mem_cons_of_mem _ hx))
    by_cases hig : sid ∈ ignore
    · simp only [subjectFactory, if_pos hig, ih, List.filter_cons]
      simp [hig]
    · have hsome := h sid (List.mem_cons_self _ _) hig
      cases hp : (processSubject w data_dir output_dir sid).1 with
      | none => rw [hp] at hsome; simp at hsome
      | some t =>
        simp only [subjectFactory, if_neg hig, hp, List.filter_cons]
        simp [hig, processSubject_subject_id hp, ih]

theorem length_filter_sub (ignore : List String) :
    ∀ subjects : List String,
    (subjects.filter (fun sid => sid ∉ ignore)).length =
      subjects.length - (subjects.filter (fun sid => sid ∈ ignore)).length
  | [] => rfl
  | sid :: rest => by
    have ih := length_filter_sub ignore rest
    simp only [decide_not] at ih
    by_cases hig : sid ∈ ignore
    · simpa [List.filter_cons, hig, Nat.succ_sub_succ, decide_not] using ih
    · have hle : (rest.filter (fun s => s ∈ ignore)).length ≤ rest.length :=
        List.length_filter_le _ _
      simp [List.filter_cons, hig, decide_not, ih, Nat.succ_sub hle]

/-- C4: with `restrict_subjects` absent and every enumerated subject complete,
the yielded subject ids are exactly the sorted globbed directory basenames
with the exclusion list filtered out, so the yielded count is the number of
subject directories minus the number of excluded ones; with an explicit
`restrict_subjects`, the enumeration is that list (sorted, still filtered by
the exclusion list) and is computed without consulting the filesystem at
all. -/
theorem discovery_inclusion_exclusion
    (w : World) (data_dir output_dir : String) (ignore restrict : List String)
    (hallG : ∀ sid ∈ computeSubjects w data_dir none, sid ∉ ignore →
      (processSubject w data_dir output_dir sid).1.isSome = true)
    (hallR : ∀ sid ∈ computeSubjects w data_dir (some restrict), sid ∉ ignore →
      (processSubject w data_dir output_dir sid).1.isSome = true) :
    ((discoverSubjects w data_dir output_dir (some ignore) none).1.map
        SubjectData.subject_id =
      (pySorted ((w.glob (pathJoin data_dir "sub???")).map basename)).filter
        (fun sid => sid ∉ ignore))
  ∧ (discoverSubjects w data_dir output_dir (some ignore) none).1.length =
      ((w.glob (pathJoin data_dir "sub???")).map basename).length -
        (((w.glob (pathJoin data_dir "sub???")).map basename).filter
          (fun sid => sid ∈ ignore)).length
  ∧ ((discoverSubjects w data_dir output_dir (some ignore) (some restrict)).1.map
        SubjectData.subject_id =
      (pySorted restrict).filter (fun sid => sid ∉ ignore))
  ∧ (∀ w₂ : World, computeSubjects w₂ data_dir (some restrict) =
      computeSubjects w data_dir (some restrict)) := by
  have hidsG := subjectFactory_ids w data_dir output_dir ignore
    (computeSubjects w data_dir none) hallG
  have hidsR := subjectFactory_ids w data_dir output_dir ignore
    (computeSubjects w data_dir (some restrict)) hallR
  refine ⟨hidsG, ?_, hidsR, fun w₂ => rfl⟩
  have hlen : (discoverSubjects w data_dir output_dir (some ignore) none).1.length =
      ((computeSubjects w data_dir none).filter (fun sid => sid ∉ ignore)).length := by
    rw [← hidsG, List.length_map]
    rfl
  rw [hlen, length_filter_sub]
  simp only [computeSubjects]
  have hperm := pySorted_perm ((w.glob (pathJoin data_dir "sub???")).map basename)
  rw [hperm.length_eq, (hperm.filter _).length_eq]

/-- A concrete world for the C4 witness: three subject directories, no BOLD
data anywhere (so every subject trivially has complete session data). -/
def wC4 : World where
  pathExists := fun _ => false
  glob := fun pat =>
    if pat = pathJoin "/d" "sub???" then ["/d/sub002", "/d/sub001", "/d/sub003"]
    else []

/-- Witness for C4 at `wC4` with exclusion list [sub002] and inclusion list
[sub009, sub001]. -/
theorem discovery_inclusion_exclusion_witness :
    (∀ sid ∈ computeSubjects wC4 "/d" none, sid ∉ ["sub002"] →
      (processSubject wC4 "/d" "/o" sid).1.isSome = true) ∧
    ((discoverSubjects wC4 "/d" "/o" (some ["sub002"]) none).1.map
        SubjectData.subject_id = ["sub001", "sub003"]) ∧
    (discoverSubjects wC4 "/d" "/o" (some ["sub002"]) none).1.length = 2 ∧
    ((discoverSubjects wC4 "/d" "/o" (some ["sub002"])
        (some ["sub009", "sub001"])).1.map SubjectData.subject_id =
      ["sub001", "sub009"]) :=
  ⟨by decide, by
    have h := discovery_inclusion_exclusion wC4 "/d" "/o" ["sub002"] ["sub009", "sub001"]
      (by decide) (by decide)
    exact ⟨by rw [h.1]; decide, by rw [h.2.1]; decide, by rw [h.2.2.1]; decide⟩⟩

/-- C8: when the input directory is missing, `preproc_dataset` calls the
fetch routine on the parent directory and the last path component before any
subject enumeration, and its outcome alone decides what follows — an error
propagates unchanged, success proceeds to enumeration; when the directory
exists, the fetch routine is never consulted. -/
theorem fetch_gate (w : World) (fetch : String → String → Except String Unit)
    (data_dir : String) (restrict : Option (List String)) :
    (w.pathExists data_dir = false →
      preprocHead w fetch data_dir restrict =
        match fetch (splitPath data_dir).1 (splitPath data_dir).2 with
        | .error e => .error e
        | .ok _ => .ok (computeSubjects w data_dir restrict))
  ∧ (w.pathExists data_dir = true →
      ∀ fetch₂, preprocHead w fetch data_dir restrict =
        preprocHead w fetch₂ data_dir restrict) := by
  constructor
  · intro hne
    simp [preprocHead, hne]
  · intro hex fetch₂
    simp [preprocHead, hex]

/-- A concrete world for the C8 witness: nothing exists on disk. -/
def wC8 : World where
  pathExists := fun _ => false
  glob := fun _ => []

/-- Witness for C8: with `/data/ds001` missing, a failing fetch of dataset
`ds001` into `/data` aborts `preproc_dataset` with the fetch error
unchanged. -/
theorem fetch_gate_witness :
    wC8.pathExists "/data/ds001" = false ∧
    preprocHead wC8 (fun p i => Except.error ("fetch failed: " ++ p ++ "/" ++ i))
      "/data/ds001" none =
      Except.error "fetch failed: /data/ds001" :=
  ⟨rfl, by
    rw [(fetch_gate wC8 (fun p i => Except.error ("fetch failed: " ++ p ++ "/" ++ i))
      "/data/ds001" none).1 rfl]
    rfl⟩

/-! ## C2: the undefined name `preproc_params` -/

/-- The names bound at module level in `openfmri.py`: the three imports, the
two imported functions and the imported class, the module constant, and the
five function definitions. -/
def openfmriModuleNames : List String :=
  ["os", "glob", "warnings", "do_subjects_preproc", "SubjectData", "fetch_openfmri",
   "DATASET_DESCRIPTION", "preproc_dataset", "_save_to_layout", "_check_dir",
   "_link_files", "_link_file"]

/-- The names bound in the local scope of `preproc_dataset` by the time the
`do_subjects_preproc(...)` call is evaluated: its eight parameters and the
four preceding local assignments (including the nested `subject_factory`). -/
def preprocDatasetLocalNames : List String :=
  ["data_dir", "output_dir", "open_output", "ignore_subjects", "restrict_subjects",
   "delete_orient", "dartel", "n_jobs",
   "parent_dir", "dataset_id", "subjects", "subject_factory"]

/-- Name resolution at the call site: a name resolves iff it is a local of
`preproc_dataset` or a module-level name of `openfmri.py`. -/
def resolvesInPreprocDataset (n : String) : Bool :=
  n ∈ preprocDatasetLocalNames ∨ n ∈ openfmriModuleNames

/-- The names referenced by the argument expressions of the
`do_subjects_preproc(...)` call in `preproc_dataset`, in Python's
left-to-right evaluation order. -/
def preprocCallArgNames : List String :=
  ["subject_factory", "n_jobs", "dataset_id", "output_dir", "delete_orient",
   "dartel", "DATASET_DESCRIPTION", "preproc_params"]

/-- Evaluate the call's argument names left to right; the first unresolvable
name raises `NameError`, so the call itself is never made. -/
def evalPreprocCallArgs : List String → Except String Unit
  | [] => .ok ()
  | n :: rest =>
    if resolvesInPreprocDataset n then evalPreprocCallArgs rest
    else .error ("NameError: name " ++ n ++ " is not defined")

/-- The two externally visible steps at the end of `preproc_dataset`. -/
inductive PreprocStep where
  | preprocCall
  | mirror
deriving DecidableEq

/-- The tail of `preproc_dataset` after discovery: evaluate the call
arguments; only on success do `do_subjects_preproc` and then
`_save_to_layout` run. -/
def preprocDatasetTail : Except String (List PreprocStep) :=
  match evalPreprocCallArgs preprocCallArgNames with
  | .error e => .error e
  | .ok _ => .ok [PreprocStep.preprocCall, PreprocStep.mirror]

/-- C2: the call to `do_subjects_preproc` references `preproc_params`, a name
bound neither in `preproc_dataset`'s scope nor at module level, so argument
evaluation raises `NameError` and neither the preprocessing call nor the
mirror step ever executes. -/
theorem preproc_params_name_error :
    resolvesInPreprocDataset "preproc_params" = false
  ∧ "preproc_params" ∈ preprocCallArgNames
  ∧ preprocDatasetTail =
      Except.error "NameError: name preproc_params is not defined" := by
  refine ⟨by decide, by decide, ?_⟩
  rfl

/-! ## The layout mirror (`_save_to_layout`) -/

/-- The per-subject result descriptor returned by the external preprocessing
step, as consumed by `_save_to_layout`. -/
structure SubjectResult where
  subject_id : String
  session_id : List String
  func : List String
  realignment_parameters : List String
  anat : String
deriving DecidableEq, Inhabited

/-- A single hard-link action: link `src` as `destDir/fname`. -/
structure LinkAct where
  destDir : String
  fname : String
  src : String
deriving DecidableEq

/-- Lookup in a Python `dict` built from a (key, value) list: a later binding
of a key overrides an earlier one, so search from the end. -/
def pyDictGet (d : List (String × SubjectResult)) (k : String) : Option SubjectResult :=
  match d with
  | [] => none
  | e :: rest =>
    match pyDictGet rest k with
    | some v => some v
    | none => if e.1 = k then some e.2 else none

/-- `preproc = dict([(s.subject_id, s) for s in preproc])`. -/
def preprocIndex (preproc : List SubjectResult) : List (String × SubjectResult) :=
  preproc.map (fun s => (s.subject_id, s))

/-- The actions of `_link_files(dest_dir, files)`: link each file under its
own basename. -/
def linkFilesActs (dest_dir : String) (files : List String) : List LinkAct :=
  files.map (fun f => ⟨dest_dir, (splitPath f).2, f⟩)

/-- Destination root resolution of `_save_to_layout`: a hidden `.openfmri`
sibling of the preprocessing output tree by default, else the given base,
nested by dataset id in both cases. -/
def resolveBaseOutput (data_dir preproc_dir : String) (base_output : Option String) :
    String :=
  let study_id := (splitPath (rstripSlash data_dir)).2
  match base_output with
  | none => pathJoins (splitPath preproc_dir).1 [".openfmri", study_id]
  | some b => pathJoin b study_id

/-- The onset-linking actions for one subject: for each session directory
globbed under the subject's `model/model001/onsets`, link every `*.txt` file
into the mirrored onsets directory. -/
def onsetActs (w : World) (data_dir base_output subject_id : String) : List LinkAct :=
  (w.glob (pathJoins data_dir [subject_id, "model", "model001", "onsets", "*"])).flatMap
    (fun session_dir =>
      linkFilesActs
        (pathJoins base_output
          [subject_id, "model", "model001", "onsets", (splitPath session_dir).2])
        (w.glob (pathJoin session_dir "*.txt")))

/-- The imaging-linking actions for one subject's result descriptor: the
anatomical image as `highres001.nii`, then, per positionally zipped
(session, functional, motion) triple, `bold.nii` and `motion.txt` in the
session's mirrored `BOLD` directory. -/
def imagingActs (base_output subject_id : String) (s : SubjectResult) : List LinkAct :=
  ⟨pathJoins base_output [subject_id, "model", "model001", "anatomy"],
    "highres001.nii", s.anat⟩ ::
  (s.session_id.zip (s.func.zip s.realignment_parameters)).flatMap
    (fun t =>
      [⟨pathJoins base_output [subject_id, "model", "model001", "BOLD", t.1],
         "bold.nii", t.2.1⟩,
       ⟨pathJoins base_output [subject_id, "model", "model001", "BOLD", t.1],
         "motion.txt", t.2.2⟩])

/-- The subject loop of `_save_to_layout`: for each globbed subject directory,
link onsets first, then look the subject up in the preproc index — a missing
key raises `KeyError`, aborting the loop while keeping everything done so
far. -/
def subjectLoopActs (w : World) (data_dir base_output : String)
    (d : List (String × SubjectResult)) : List String → List LinkAct × Option String
  | [] => ([], none)
  | subject_dir :: rest =>
    let oActs := onsetActs w data_dir base_output (splitPath subject_dir).2
    match pyDictGet d (splitPath subject_dir).2 with
    | none => (oActs, some ("KeyError: " ++ (splitPath subject_dir).2))
    | some s =>
      let r := subjectLoopActs w data_dir base_output d rest
      (oActs ++ imagingActs base_output (splitPath subject_dir).2 s ++ r.1, r.2)

/-- Embedding of `_save_to_layout` as the ordered sequence of hard-link
actions it performs, paired with the uncaught `KeyError` if one occurs:
top-level model and `*.txt` metadata links first, then the subject loop over
the `sub???` glob of the preprocessing output tree. -/
def saveToLayout (w : World) (data_dir preproc_dir : String)
    (preproc : List SubjectResult) (base_output : Option String) :
    List LinkAct × Option String :=
  let bo := resolveBaseOutput data_dir preproc_dir base_output
  let a₁ := linkFilesActs (pathJoins bo ["models", "model001"])
    (w.glob (pathJoins data_dir ["models", "model001", "*.txt"]))
  let a₂ := linkFilesActs bo (w.glob (pathJoin data_dir "*.txt"))
  let r := subjectLoopActs w data_dir bo (preprocIndex preproc)
    (w.glob (pathJoin preproc_dir "sub???"))
  (a₁ ++ a₂ ++ r.1, r.2)

theorem subjectLoopActs_all_good (w : World) (data_dir base_output : String)
    (d : List (String × SubjectResult)) :
    ∀ (dirs : List String),
    (∀ dir ∈ dirs, (pyDictGet d (splitPath dir).2).isSome = true) →
    subjectLoopActs w data_dir base_output d dirs =
      (dirs.flatMap (fun dir =>
        onsetActs w data_dir base_output (splitPath dir).2 ++
        imagingActs base_output (splitPath dir).2
          ((pyDictGet d (splitPath dir).2).getD default)), none)
  | [], _ => rfl
  | dir :: rest, h => by
    obtain ⟨s, hp⟩ := Option.isSome_iff_exists.mp (h dir (List.mem_cons_self _ _))
    have ih := subjectLoopActs_all_good w data_dir base_output d rest
      (fun x hx => h x (List.mem_cons_of_mem _ hx))
    simp [subjectLoopActs, hp, ih, List.append_assoc]

theorem subjectLoopActs_key_error (w : World) (data_dir base_output : String)
    (d : List (String × SubjectResult)) (badDir : String)
    (hbad : pyDictGet d (splitPath badDir).2 = none) :
    ∀ (dirs : List String),
    (∀ dir ∈ dirs, (pyDictGet d (splitPath dir).2).isSome = true) →
    subjectLoopActs w data_dir base_output d (dirs ++ [badDir]) =
      ((subjectLoopActs w data_dir base_output d dirs).1 ++
        onsetActs w data_dir base_output (splitPath badDir).2,
       some ("KeyError: " ++ (splitPath badDir).2))
  | [], _ => by simp [subjectLoopActs, hbad]
  | dir :: rest, h => by
    obtain ⟨s, hp⟩ := Option.isSome_iff_exists.mp (h dir (List.mem_cons_self _ _))
    have ih := subjectLoopActs_key_error w data_dir base_output d badDir hbad rest
      (fun x hx => h x (List.mem_cons_of_mem _ hx))
    simp [subjectLoopActs, hp, ih, List.append_assoc]

/-- C7: in the mirror step, for every subject directory globbed from the
preprocessing output tree, the subject's result descriptor is looked up by
id in the index built from the descriptors, its anatomical image is linked
as `highres001.nii` under the subject's mirrored anatomy directory, and for
each positionally zipped (session, functional, motion) triple the functional
image is linked as `bold.nii` and the motion file as `motion.txt` in the
mirrored `BOLD/<session>` directory; with every globbed subject present in
the index, no error occurs. -/
theorem mirror_links_imaging (w : World) (data_dir preproc_dir : String)
    (preproc : List SubjectResult) (base_output : Option String)
    (hall : ∀ dir ∈ w.glob (pathJoin preproc_dir "sub???"),
      (pyDictGet (preprocIndex preproc) (splitPath dir).2).isSome = true)
    (dir : String) (hdir : dir ∈ w.glob (pathJoin preproc_dir "sub???"))
    (s : SubjectResult)
    (hs : pyDictGet (preprocIndex preproc) (splitPath dir).2 = some s) :
    ((⟨pathJoins (resolveBaseOutput data_dir preproc_dir base_output)
        [(splitPath dir).2, "model", "model001", "anatomy"],
       "highres001.nii", s.anat⟩ : LinkAct)
      ∈ (saveToLayout w data_dir preproc_dir preproc base_output).1)
  ∧ (∀ ses f m,
      (ses, (f, m)) ∈ s.session_id.zip (s.func.zip s.realignment_parameters) →
      ((⟨pathJoins (resolveBaseOutput data_dir preproc_dir base_output)
          [(splitPath dir).2, "model", "model001", "BOLD", ses],
         "bold.nii", f⟩ : LinkAct)
        ∈ (saveToLayout w data_dir preproc_dir preproc base_output).1)
      ∧ ((⟨pathJoins (resolveBaseOutput data_dir preproc_dir base_output)
          [(splitPath dir).2, "model", "model001", "BOLD", ses],
         "motion.txt", m⟩ : LinkAct)
        ∈ (saveToLayout w data_dir preproc_dir preproc base_output).1))
  ∧ (saveToLayout w data_dir preproc_dir preproc base_output).2 = none := by
  have hloop := subjectLoopActs_all_good w data_dir
    (resolveBaseOutput data_dir preproc_dir base_output) (preprocIndex preproc)
    (w.glob (pathJoin preproc_dir "sub???")) hall
  have hmem : ∀ a ∈ imagingActs (resolveBaseOutput data_dir preproc_dir base_output)
      (splitPath dir).2 s,
      a ∈ (saveToLayout w data_dir preproc_dir preproc base_output).1 := by
    intro a ha
    simp only [saveToLayout, hloop]
    refine List.mem_append_right _ ?_
    refine List.mem_flatMap.mpr ⟨dir, hdir, ?_⟩
    refine List.mem_append_right _ ?_
    rw [hs]
    simpa using ha
  refine ⟨?_, ?_, ?_⟩
  · exact hmem _ (List.mem_cons_self _ _)
  · intro ses f m ht
    refine ⟨hmem _ ?_, hmem _ ?_⟩
    · exact List.mem_cons_of_mem _
        (List.mem_flatMap.mpr ⟨(ses, (f, m)), ht, by simp⟩)
    · exact List.mem_cons_of_mem _
        (List.mem_flatMap.mpr ⟨(ses, (f, m)), ht, by simp⟩)
  · simp only [saveToLayout, hloop]

/-- C9: if the preprocessing output tree contains a `sub???` directory whose
identifier is not among the result descriptors, the index lookup raises an
unhandled `KeyError`; the failing subject's onset files were linked before
the lookup and all links of previously processed subjects remain, so the
mirror step is non-atomic on this error. -/
theorem mirror_key_error_non_atomic (w : World) (data_dir preproc_dir : String)
    (preproc : List SubjectResult) (base_output : Option String)
    (good : List String) (badDir : String)
    (hglob : w.glob (pathJoin preproc_dir "sub???") = good ++ [badDir])
    (hgood : ∀ dir ∈ good,
      (pyDictGet (preprocIndex preproc) (splitPath dir).2).isSome = true)
    (hbad : pyDictGet (preprocIndex preproc) (splitPath badDir).2 = none) :
    saveToLayout w data_dir preproc_dir preproc base_output =
      (linkFilesActs
          (pathJoins (resolveBaseOutput data_dir preproc_dir base_output)
            ["models", "model001"])
          (w.glob (pathJoins data_dir ["models", "model001", "*.txt"]))
        ++ linkFilesActs (resolveBaseOutput data_dir preproc_dir base_output)
          (w.glob (pathJoin data_dir "*.txt"))
        ++ ((subjectLoopActs w data_dir
              (resolveBaseOutput data_dir preproc_dir base_output)
              (preprocIndex preproc) good).1
            ++ onsetActs w data_dir
              (resolveBaseOutput data_dir preproc_dir base_output)
              (splitPath badDir).2),
       some ("KeyError: " ++ (splitPath badDir).2)) := by
  have hloop := subjectLoopActs_key_error w data_dir
    (resolveBaseOutput data_dir preproc_dir base_output) (preprocIndex preproc)
    badDir hbad good hgood
  simp only [saveToLayout, hglob, hloop]

/-- The single result descriptor used by the C7 and C9 witnesses. -/
def sR7 : SubjectResult where
  subject_id := "sub001"
  session_id := ["ses1"]
  func := ["/p/sub001/wf.nii"]
  realignment_parameters := ["/p/sub001/rp.txt"]
  anat := "/p/sub001/wanat.nii"

/-- A concrete world for the C7 witness: one subject directory in the
preprocessing output tree. -/
def wC7 : World where
  pathExists := fun _ => false
  glob := fun pat => if pat = pathJoin "/p" "sub???" then ["/p/sub001"] else []

/-- Witness for C7 at `wC7` with the single descriptor `sR7`. -/
theorem mirror_links_imaging_witness :
    (∀ dir ∈ wC7.glob (pathJoin "/p" "sub???"),
      (pyDictGet (preprocIndex [sR7]) (splitPath dir).2).isSome = true) ∧
    "/p/sub001" ∈ wC7.glob (pathJoin "/p" "sub???") ∧
    pyDictGet (preprocIndex [sR7]) (splitPath "/p/sub001").2 = some sR7 ∧
    (("ses1", ("/p/sub001/wf.nii", "/p/sub001/rp.txt")) ∈
      sR7.session_id.zip (sR7.func.zip sR7.realignment_parameters)) ∧
    ((⟨pathJoins (resolveBaseOutput "/d" "/p" none)
        [(splitPath "/p/sub001").2, "model", "model001", "anatomy"],
       "highres001.nii", sR7.anat⟩ : LinkAct)
      ∈ (saveToLayout wC7 "/d" "/p" [sR7] none).1) ∧
    ((⟨pathJoins (resolveBaseOutput "/d" "/p" none)
        [(splitPath "/p/sub001").2, "model", "model001", "BOLD", "ses1"],
       "bold.nii", "/p/sub001/wf.nii"⟩ : LinkAct)
      ∈ (saveToLayout wC7 "/d" "/p" [sR7] none).1) ∧
    ((⟨pathJoins (resolveBaseOutput "/d" "/p" none)
        [(splitPath "/p/sub001").2, "model", "model001", "BOLD", "ses1"],
       "motion.txt", "/p/sub001/rp.txt"⟩ : LinkAct)
      ∈ (saveToLayout wC7 "/d" "/p" [sR7] none).1) ∧
    (saveToLayout wC7 "/d" "/p" [sR7] none).2 = none := by
  have h := mirror_links_imaging wC7 "/d" "/p" [sR7] none (by decide)
    "/p/sub001" (by decide) sR7 (by decide)
  have ht := h.2.1 "ses1" "/p/sub001/wf.nii" "/p/sub001/rp.txt" (by decide)
  exact ⟨by decide, by decide, by decide, by decide, h.1, ht.1, ht.2, h.2.2⟩

/-- A concrete world for the C9 witness: two subject directories in the
preprocessing output tree, only the first with a result descriptor. -/
def wC9 : World where
  pathExists := fun _ => false
  glob := fun pat =>
    if pat = pathJoin "/p" "sub???" then ["/p/sub001", "/p/sub002"] else []

/-- Witness for C9 at `wC9`: `sub002` has no descriptor, so the mirror step
ends in `KeyError: sub002` with the first subject's links and the failing
subject's onset links retained. -/
theorem mirror_key_error_non_atomic_witness :
    wC9.glob (pathJoin "/p" "sub???") = ["/p/sub001"] ++ ["/p/sub002"] ∧
    pyDictGet (preprocIndex [sR7]) (splitPath "/p/sub002").2 = none ∧
    (saveToLayout wC9 "/d" "/p" [sR7] none).2 =
      some ("KeyError: " ++ (splitPath "/p/sub002").2) ∧
    (saveToLayout wC9 "/d" "/p" [sR7] none).1 =
      (subjectLoopActs wC9 "/d" (resolveBaseOutput "/d" "/p" none)
        (preprocIndex [sR7]) ["/p/sub001"]).1
      ++ onsetActs wC9 "/d" (resolveBaseOutput "/d" "/p" none)
        (splitPath "/p/sub002").2 := by
  have h := mirror_key_error_non_atomic wC9 "/d" "/p" [sR7] none
    ["/p/sub001"] "/p/sub002" (by decide) (by decide) (by decide)
  refine ⟨by decide, by decide, ?_, ?_⟩
  · rw [h]
  · rw [h]
    decide

/-! ## C10: the outlier script contains unresolved merge-conflict markers -/

/-- The unresolved git merge-conflict marker lines present verbatim in
`scripts/oasis_vbm/clean_data.py`, with their 1-based line numbers; none of
the script's remaining lines begins with a marker. -/
def cleanDataConflictLines : List (Nat × String) :=
  [(13, "<<<<<<< HEAD"),
   (33, "======="),
   (70, ">>>>>>> 7127fbafc1c48de982482a106d48dcc6ac422172"),
   (84, "<<<<<<< HEAD"),
   (85, "======="),
   (87, ">>>>>>> 7127fbafc1c48de982482a106d48dcc6ac422172")]

/-- A line opens with a git conflict marker when it starts with one of the
three seven-character marker tokens. -/
def isConflictMarkerLine (s : String) : Bool :=
  "<<<<<<<".data.isPrefixOf s.data || "=======".data.isPrefixOf s.data ||
    ">>>>>>>".data.isPrefixOf s.data

/-- Modelled from the spec: CPython's parser is not part of this repository;
per Python's grammar, a module line beginning with an unresolved conflict
marker (a bare `<<`/`==`/`>>` operator chain at statement position) is a
syntax error, and a module that fails to parse executes none of its
statements.  The parse check is evaluated over the module's marker lines. -/
def pyModuleParses (markerLines : List (Nat × String)) : Bool :=
  markerLines.all (fun l => !(isConflictMarkerLine l.2))

/-- Modelled from the spec: running a Python script first parses the whole
module; a `SyntaxError` aborts before any statement (image loading, masking,
distance computation, thresholding, plotting) executes. -/
def runCleanDataScript : Except String Unit :=
  if pyModuleParses cleanDataConflictLines then .ok () else .error "SyntaxError"

/-- C10: `clean_data.py` contains unresolved merge-conflict markers
(`<<<<<<< HEAD` at line 13 among others), so the module fails to parse and
none of its steps can ever execute. -/
theorem clean_data_not_parseable :
    (13, "<<<<<<< HEAD") ∈ cleanDataConflictLines
  ∧ pyModuleParses cleanDataConflictLines = false
  ∧ runCleanDataScript = Except.error "SyntaxError" := by
  refine ⟨by decide, by decide, ?_⟩
  rfl
